import Mathlib

/-!
Verification of the EK-KOR2 coordination core (Python reference
implementation) against its natural-language specification.

The Python sources embedded here are:
 - `ek-kor2/tools/reference_impl.py` (namespace `RefImpl`): Q16.16 fixed
   point, field gradient, piecewise-linear decay, quorum check, heartbeat
   state machine;
 - `ek-kor2/sim/multi_module.py` (namespace `Sim`): the simulator Module
   with its tick loop and k-nearest-neighbor re-election.

Python integers are modelled as `Int` (arbitrary precision, as in Python);
Python float arithmetic is modelled exactly over `Rat` with the source
code literals taken as the exact decimal rationals they denote.
-/

set_option maxHeartbeats 1000000

namespace EkKor2

namespace RefImpl

/-- Reduction applied by `Q16_16.__init__`: the source subtracts `2^32`
once when `bits > 0x7FFFFFFF`, and otherwise stores `bits` unchanged
(there is no branch for `bits < -2^31`). -/
def wrap32 (bits : ℤ) : ℤ :=
  if bits > 2147483647 then bits - 4294967296 else bits

/-- Q16.16 fixed-point number: raw bits, as stored by the Python class
`Q16_16` (a Python int, hence unbounded — the intended 32-bit invariant
is exactly what claim C1 is about). -/
structure Q16_16 where
  bits : ℤ
deriving DecidableEq, Repr

/-- `Q16_16.__init__(bits)`: store `wrap32 bits`. -/
def Q16_16.ofBits (bits : ℤ) : Q16_16 := ⟨wrap32 bits⟩

/-- Python `round` (round half to even) on an exact rational. -/
def pyround (q : ℚ) : ℤ :=
  let n : ℤ := q.floor
  let f : ℚ := q - (n : ℚ)
  if f < 1/2 then n
  else if 1/2 < f then n + 1
  else if n % 2 = 0 then n else n + 1

/-- `Q16_16.from_float`: `int(round(f * 65536))` then the constructor. -/
def Q16_16.from_float (f : ℚ) : Q16_16 := Q16_16.ofBits (pyround (f * 65536))

/-- `Q16_16.to_float`: `bits / 65536` (exact). -/
def Q16_16.to_float (a : Q16_16) : ℚ := (a.bits : ℚ) / 65536

/-- `Q16_16.__add__`. -/
def Q16_16.add (a b : Q16_16) : Q16_16 := Q16_16.ofBits (a.bits + b.bits)

/-- `Q16_16.__sub__`. -/
def Q16_16.sub (a b : Q16_16) : Q16_16 := Q16_16.ofBits (a.bits - b.bits)

/-- `Q16_16.__neg__`. -/
def Q16_16.neg (a : Q16_16) : Q16_16 := Q16_16.ofBits (-a.bits)

/-- `Q16_16.__abs__`. -/
def Q16_16.abs (a : Q16_16) : Q16_16 := Q16_16.ofBits |a.bits|

/-- Module-level constant `Q16_ZERO = Q16_16.from_float(0.0)`. -/
def Q16_ZERO : Q16_16 := Q16_16.from_float 0

/-- The signed 32-bit range the spec's invariant asserts for `bits`. -/
def inRange32 (z : ℤ) : Prop := -2147483648 ≤ z ∧ z ≤ 2147483647

instance (z : ℤ) : Decidable (inRange32 z) := by
  unfold inRange32; infer_instance

/-- `VoteResult` enum from reference_impl.py. -/
inductive VoteResult where
  | pending
  | approved
  | rejected
  | timeout
  | cancelled
deriving DecidableEq, Repr

/-- `quorum_check(yes_count, total_voters, threshold)`: zero electorate is
rejected; otherwise approved iff `yes_count / total_voters >= threshold`
(the Python float division is modelled as exact rational division). -/
def quorum_check (yes_count total_voters : ℤ) (threshold : ℚ) : VoteResult :=
  if total_voters = 0 then VoteResult.rejected
  else if (yes_count : ℚ) / (total_voters : ℚ) ≥ threshold then VoteResult.approved
  else VoteResult.rejected

/-- `HealthState` enum (identical in reference_impl.py and
multi_module.py). -/
inductive HealthState where
  | unknown
  | alive
  | suspect
  | dead
deriving DecidableEq, Repr

/-- `heartbeat_state_transition`: received heartbeat wins; then the dead
threshold `period_us * timeout_count`, then the suspect threshold
`period_us * 2`, then Unknown stays Unknown, else hold the state. -/
def heartbeat_state_transition (current_state : HealthState)
    (elapsed_since_last period_us timeout_count : ℤ)
    (received_heartbeat : Bool) : HealthState :=
  if received_heartbeat then HealthState.alive
  else
    let suspect_threshold := period_us * 2
    let dead_threshold := period_us * timeout_count
    if elapsed_since_last > dead_threshold then HealthState.dead
    else if elapsed_since_last > suspect_threshold then HealthState.suspect
    else if current_state = HealthState.unknown then HealthState.unknown
    else current_state

/-- The `Field` dataclass of reference_impl.py: five Q16.16 components
plus integer timestamp, source and sequence. The default constructor
(`__post_init__`) fills missing components with `Q16_ZERO`. -/
structure Field where
  load : Q16_16 := Q16_ZERO
  thermal : Q16_16 := Q16_ZERO
  power : Q16_16 := Q16_ZERO
  custom0 : Q16_16 := Q16_ZERO
  custom1 : Q16_16 := Q16_ZERO
  timestamp : ℤ := 0
  source : ℤ := 0
  sequence : ℤ := 0
deriving DecidableEq, Repr

/-- A Python value reachable from `getattr` on a `Field` instance: a
`Q16_16` component, a plain int attribute (timestamp, source, sequence),
or an opaque non-numeric object — a class-level attribute such as a
method, docstring or metadata dict, on which Python arithmetic raises
`TypeError`. -/
inductive PyVal where
  | q (v : Q16_16)
  | i (n : ℤ)
  | obj (name : String)
deriving DecidableEq, Repr

deriving instance DecidableEq for Except

/-- A name beginning with two underscores. On an instance of the
`Field` dataclass, every attribute name CPython can resolve beyond the
eight instance attributes is a class-level protocol name of this shape
(`__init__`, `__post_init__`, `__doc__`, `__dataclass_fields__`,
`__eq__`, ...). -/
def isDunderName (name : String) : Bool :=
  match name.data with
  | c1 :: c2 :: _ => c1 = Char.ofNat 95 && c2 = Char.ofNat 95
  | _ => false

/-- Python `getattr(field, name, default)` on a `Field` instance. The
eight instance attributes win (as in Python); a name beginning with two
underscores can resolve to a class-level attribute — a method, string or
metadata dict, never a number — and is modelled as an opaque
`PyVal.obj` (the exact set of such names varies with the CPython
version, so the model maps every double-underscore name to the opaque
object and no claim quantifies over them); any other name is absent from
instance and class alike, so the default is returned. -/
def Field.getattr (f : Field) (name : String) (default : PyVal) : PyVal :=
  if name = "load" then PyVal.q f.load
  else if name = "thermal" then PyVal.q f.thermal
  else if name = "power" then PyVal.q f.power
  else if name = "custom0" then PyVal.q f.custom0
  else if name = "custom1" then PyVal.q f.custom1
  else if name = "timestamp" then PyVal.i f.timestamp
  else if name = "source" then PyVal.i f.source
  else if name = "sequence" then PyVal.i f.sequence
  else if isDunderName name then PyVal.obj name
  else default

/-- Python subtraction on the value shapes `gradient` can produce:
`Q16_16 - Q16_16` uses `__sub__`; `int - int` is plain int subtraction;
a mixed pair, or any operand that is an opaque class-attribute object
(method, string, dict), raises (`AttributeError`/`TypeError`), modelled
as `Except.error`. -/
def pySub : PyVal → PyVal → Except Unit PyVal
  | PyVal.q a, PyVal.q b => Except.ok (PyVal.q (Q16_16.sub a b))
  | PyVal.i a, PyVal.i b => Except.ok (PyVal.i (a - b))
  | _, _ => Except.error ()

/-- `gradient(my_field, neighbor_field, component)`:
`getattr(neighbor, component, Q16_ZERO) - getattr(my, component, Q16_ZERO)`. -/
def gradient (my_field neighbor_field : Field) (component : String) :
    Except Unit PyVal :=
  pySub (neighbor_field.getattr component (PyVal.q Q16_ZERO))
    (my_field.getattr component (PyVal.q Q16_ZERO))

/-- Python unary minus on the two value shapes `gradient` can produce:
`Q16_16.__neg__` on a fixed-point value, int negation on an int. Python
unary minus on an opaque class-attribute object raises; no stated claim
applies `pyNeg` to one, so that case is mapped to itself. Used to state
the antisymmetry claim `gradient(a,b,c) == -gradient(b,a,c)`. -/
def pyNeg : PyVal → PyVal
  | PyVal.q v => PyVal.q (Q16_16.neg v)
  | PyVal.i n => PyVal.i (-n)
  | PyVal.obj n => PyVal.obj n

/-- All five Q16.16 components of a field have bits in the signed 32-bit
range (the full range of Q16.16 component values). -/
def Field.componentsInRange (f : Field) : Prop :=
  inRange32 f.load.bits ∧ inRange32 f.thermal.bits ∧ inRange32 f.power.bits ∧
    inRange32 f.custom0.bits ∧ inRange32 f.custom1.bits

instance (f : Field) : Decidable f.componentsInRange := by
  unfold Field.componentsInRange; infer_instance

/-- The five component names the data model recognizes. -/
def recognizedComponents : List String :=
  ["load", "thermal", "power", "custom0", "custom1"]

/-- The instance attribute names of the `Field` dataclass. -/
def fieldAttrNames : List String :=
  ["load", "thermal", "power", "custom0", "custom1",
   "timestamp", "source", "sequence"]

/-- The branch ladder computing `factor` inside `apply_decay` (including
the final `factor = max(0.0, factor)`), with the float expressions
modelled exactly over the rationals they denote. -/
def decay_factor (t tau : ℤ) : ℚ :=
  let factor : ℚ :=
    if t < tau then 1 - ((t : ℚ) / (tau : ℚ)) * (632/1000)
    else if t < tau * 2 then 368/1000 - (((t : ℚ) - (tau : ℚ)) / (tau : ℚ)) * (233/1000)
    else if t < tau * 3 then 135/1000 - (((t : ℚ) - (tau : ℚ) * 2) / (tau : ℚ)) * (86/1000)
    else if t < tau * 5 then (49/1000) * (1 - ((t : ℚ) - (tau : ℚ) * 3) / ((tau : ℚ) * 2))
    else 0
  max 0 factor

/-- `apply_decay(value, elapsed_us, tau_us)`: non-positive elapsed
returns the value unchanged; otherwise the piecewise factor is applied as
`Q16_16.from_float(value.to_float() * factor)`. -/
def apply_decay (value : Q16_16) (elapsed_us : ℤ) (tau_us : ℤ) : Q16_16 :=
  if elapsed_us ≤ 0 then value
  else Q16_16.from_float (value.to_float * decay_factor elapsed_us tau_us)

/-- The decay factor exactly as the specification words it (section 4.2):
the 5-segment piecewise-linear approximation of exp(-elapsed/tau). This
definition is written from the spec, to be compared with `decay_factor`,
which is written from the source. -/
def specDecayFactor (elapsed tau : ℤ) : ℚ :=
  if elapsed < tau then
    1 - (632/1000) * ((elapsed : ℚ) / (tau : ℚ))
  else if elapsed < 2 * tau then
    368/1000 - (233/1000) * (((elapsed : ℚ) - (tau : ℚ)) / (tau : ℚ))
  else if elapsed < 3 * tau then
    135/1000 - (86/1000) * (((elapsed : ℚ) - 2 * (tau : ℚ)) / (tau : ℚ))
  else if elapsed < 5 * tau then
    (49/1000) * (1 - ((elapsed : ℚ) - 3 * (tau : ℚ)) / (2 * (tau : ℚ)))
  else 0

end RefImpl

namespace Sim

/-- Protocol constant `K_NEIGHBORS = 7` from multi_module.py. -/
def K_NEIGHBORS : ℕ := 7

/-- Protocol constant `FIELD_DECAY_TAU_US = 100_000`. -/
def FIELD_DECAY_TAU_US : ℤ := 100000

/-- `ModuleState` enum from multi_module.py. -/
inductive ModuleState where
  | init
  | discovering
  | active
  | degraded
  | isolated
  | reforming
  | shutdown
deriving DecidableEq, Repr

/-- `Position` dataclass of multi_module.py. -/
structure Position where
  x : ℤ
  y : ℤ
  z : ℤ := 0
deriving DecidableEq, Repr

/-- `Position.distance_squared`. -/
def Position.distance_squared (p other : Position) : ℤ :=
  (p.x - other.x) ^ 2 + (p.y - other.y) ^ 2 + (p.z - other.z) ^ 2

/-- `Field` dataclass of multi_module.py (the simulator works in Python
floats, modelled here exactly over the rationals). -/
structure Field where
  load : ℚ := 0
  thermal : ℚ := 0
  power : ℚ := 0
  timestamp : ℤ := 0
  source : ℕ := 0
deriving DecidableEq, Repr

/-- `Field.decay(now)`: `factor = math.exp(-elapsed / FIELD_DECAY_TAU_US)`.
The transcendental `math.exp` cannot be a computable rational, so the
simulator tick is parameterized by the exponential function `expFn`; the
claims proved about the tick hold for every such function. -/
def Field.decay (f : Field) (now : ℤ) (expFn : ℚ → ℚ) : Field :=
  let elapsed : ℤ := now - f.timestamp
  let factor : ℚ := expFn (-(elapsed : ℚ) / (FIELD_DECAY_TAU_US : ℚ))
  { load := f.load * factor
    thermal := f.thermal * factor
    power := f.power * factor
    timestamp := f.timestamp
    source := f.source }

/-- The exact rational value of the IEEE-754 double that CPython's
`math.exp` returns at -5.0 (the argument `Field.decay` passes at
elapsed = 5·tau): 0.006737946999085467..., which is not zero. -/
def expNegFiveDouble : ℚ := 3884161996073403 / 576460752303423488

/-- `Neighbor` dataclass of multi_module.py. -/
structure Neighbor where
  id : ℕ
  health : RefImpl.HealthState := RefImpl.HealthState.unknown
  last_seen : ℤ := 0
  last_field : Option Field := none
  distance : ℤ := 0
deriving DecidableEq, Repr

/-- One entry of `known_modules`: id mapped to (position, distance),
kept in dict insertion order (Python dicts preserve insertion order,
which the stable `sorted` then respects on equal distances). -/
abbrev KnownEntry : Type := ℕ × Position × ℤ

/-- `Module._reelect`: `sorted(known_modules.items(), key=distance)` is
Python stable sort, modelled by `List.insertionSort` on distances; then
take the first `K_NEIGHBORS`, keep the live non-self ids, and build fresh
ALIVE `Neighbor` records with the recorded distance. -/
def reelect (known_modules : List KnownEntry) (self_id : ℕ)
    (live : List ℕ) : List Neighbor :=
  let sorted_known :=
    List.insertionSort (fun a b : KnownEntry => a.2.2 ≤ b.2.2) known_modules
  ((sorted_known.take K_NEIGHBORS).filter
      (fun e => e.1 ≠ self_id ∧ e.1 ∈ live)).map
    (fun e =>
      { id := e.1
        distance := e.2.2
        health := RefImpl.HealthState.alive })

/-- The re-election procedure exactly as claim C3 words it: sort the
known modules by (distance ascending, id ascending as tie-break),
restrict to live non-self ids, truncate to the first K. Written from the
spec's words, to be compared with `reelect`, which is written from the
source. -/
def reelectClaim (known_modules : List KnownEntry) (self_id : ℕ)
    (live : List ℕ) : List Neighbor :=
  let sorted_known := List.insertionSort
    (fun a b : KnownEntry => a.2.2 < b.2.2 ∨ (a.2.2 = b.2.2 ∧ a.1 ≤ b.1))
    known_modules
  (((sorted_known.filter (fun e => e.1 ≠ self_id ∧ e.1 ∈ live)).take
      K_NEIGHBORS)).map
    (fun e =>
      { id := e.1
        distance := e.2.2
        health := RefImpl.HealthState.alive })

/-- Remove the first occurrence of `a` (Python `list.remove`); `none`
models the `ValueError` raised when `a` is absent. -/
def removeFirst {α : Type} [DecidableEq α] (a : α) :
    List α → Option (List α)
  | [] => none
  | x :: xs =>
      if x = a then some xs
      else (removeFirst a xs).map (fun r => x :: r)

/-- Step 1 of `Module.tick`: iterate over a snapshot of the neighbor
list; every neighbor whose id is no longer live is removed from the
current list (raising if absent, modelled as `Except.error`) and the
whole neighbor list is then replaced by `reelect`. -/
def pruneLoop (known_modules : List KnownEntry) (self_id : ℕ)
    (live : List ℕ) :
    List Neighbor → List Neighbor → Except Unit (List Neighbor)
  | [], current => Except.ok current
  | nb :: rest, current =>
      if nb.id ∈ live then pruneLoop known_modules self_id live rest current
      else
        match removeFirst nb current with
        | none => Except.error ()
        | some _ =>
            pruneLoop known_modules self_id live rest
              (reelect known_modules self_id live)

/-- `Module` dataclass of multi_module.py (the simulation-state `load`
float included). -/
structure Module where
  id : ℕ
  position : Position
  state : ModuleState := ModuleState.init
  my_field : Field := {}
  neighbors : List Neighbor := []
  known_modules : List KnownEntry := []
  load : ℚ := 0
deriving DecidableEq, Repr

/-- `Module.tick(now, all_modules)`. The registry `all_modules` is
modelled as an association list from live module id to that module's
`my_field`; `expFn` stands for `math.exp` and `thermalSample` for the
`random.uniform(0, 0.3)` draw of step 5, both passed in as parameters so
the tick itself is a pure function, exactly as the source computes given
those two oracles. -/
def Module.tick (m : Module) (now : ℤ) (all_modules : List (ℕ × Field))
    (expFn : ℚ → ℚ) (thermalSample : ℚ) : Except Unit Module :=
  let live := all_modules.map Prod.fst
  match pruneLoop m.known_modules m.id live m.neighbors m.neighbors with
  | Except.error e => Except.error e
  | Except.ok nbs =>
      let sampled := nbs.filterMap (fun nb =>
        (all_modules.find? (fun p => p.1 = nb.id)).map
          (fun p => ((p.2.decay now expFn).load)))
      let neighbor_count := sampled.length
      let neighbor_load_sum := sampled.foldl (fun s v => s + v) 0
      let load1 :=
        if neighbor_count > 0 then
          let neighbor_avg := neighbor_load_sum / (neighbor_count : ℚ)
          let grad := neighbor_avg - m.load
          max 0 (min 1 (m.load + grad * (1/10)))
        else m.load
      let field1 : Field :=
        { load := load1
          thermal := thermalSample
          power := load1 * (8/10)
          timestamp := now
          source := m.id }
      let state1 :=
        if nbs.length ≥ K_NEIGHBORS / 2 then ModuleState.active
        else if nbs.length > 0 then ModuleState.degraded
        else ModuleState.isolated
      Except.ok { m with
        neighbors := nbs
        load := load1
        my_field := field1
        state := state1 }

end Sim

end EkKor2

namespace EkKor2

open RefImpl Sim

/-- The module-level constant `Q16_ZERO` evaluates to raw bits 0. -/
theorem Q16_ZERO_eq : Q16_ZERO = ⟨0⟩ := by
  norm_num [Q16_ZERO, Q16_16.from_float, pyround, Rat.floor, Q16_16.ofBits,
    wrap32]

/-- C1: the claim states that every integer passed to the `Q16_16`
constructor is reduced modulo `2^32` into the signed 32-bit range, so
constructed bits always fit in that range. The code subtracts `2^32` at
most once and only when `bits > 0x7FFFFFFF`, so `2^33` is stored as
`2^32` and `-2^31 - 1` is stored unchanged — both outside the signed
32-bit range, contradicting the constructor's own "Clamp to 32-bit
signed range" comment and the spec's invariant. -/
theorem C1_constructor_no_wraparound :
    (Q16_16.ofBits (2 ^ 33)).bits = 4294967296 ∧
    ¬ inRange32 (Q16_16.ofBits (2 ^ 33)).bits ∧
    (2 ^ 33 : ℤ) % 4294967296 = 0 ∧
    (Q16_16.ofBits (-(2 ^ 31) - 1)).bits = -2147483649 ∧
    ¬ inRange32 (Q16_16.ofBits (-(2 ^ 31) - 1)).bits := by
  refine ⟨?_, ?_, ?_, ?_, ?_⟩ <;>
    simp [Q16_16.ofBits, wrap32, inRange32]

/-- C4: `quorum_check` rejects an empty electorate for every yes count
and threshold; with a positive electorate it approves exactly when
`yes_count / total_voters ≥ threshold` and rejects otherwise; the three
boundary cases of the spec hold; and the result is never Timeout,
Cancelled, or Pending. -/
theorem C4_quorum_check_spec (yes_count total_voters : ℤ) (threshold : ℚ) :
    quorum_check yes_count 0 threshold = VoteResult.rejected ∧
    (0 < total_voters →
      ((quorum_check yes_count total_voters threshold = VoteResult.approved ↔
          (yes_count : ℚ) / (total_voters : ℚ) ≥ threshold) ∧
        (¬ (yes_count : ℚ) / (total_voters : ℚ) ≥ threshold →
          quorum_check yes_count total_voters threshold = VoteResult.rejected))) ∧
    quorum_check 5 10 (1/2) = VoteResult.approved ∧
    quorum_check 4 10 (1/2) = VoteResult.rejected ∧
    quorum_check 0 0 (1/2) = VoteResult.rejected ∧
    quorum_check yes_count total_voters threshold ≠ VoteResult.timeout ∧
    quorum_check yes_count total_voters threshold ≠ VoteResult.cancelled ∧
    quorum_check yes_count total_voters threshold ≠ VoteResult.pending := by
  refine ⟨?_, fun ht => ⟨?_, ?_⟩, ?_, ?_, ?_, ?_, ?_, ?_⟩
  · simp [quorum_check]
  · unfold quorum_check
    rw [if_neg (by omega)]
    split_ifs with hr
    · simpa using hr
    · simpa using hr
  · intro hr
    unfold quorum_check
    rw [if_neg (by omega), if_neg hr]
  · norm_num [quorum_check]
  · norm_num [quorum_check]
  · norm_num [quorum_check]
  · unfold quorum_check
    split_ifs <;> simp
  · unfold quorum_check
    split_ifs <;> simp
  · unfold quorum_check
    split_ifs <;> simp

/-- C4 witness: instantiate the quorum theorem at (5, 10, 1/2) and
discharge the positive-electorate hypothesis there. -/
theorem C4_quorum_check_spec_witness :
    (0 : ℤ) < 10 ∧
    (quorum_check 5 10 (1/2) = VoteResult.approved ↔
      ((5 : ℤ) : ℚ) / ((10 : ℤ) : ℚ) ≥ (1/2 : ℚ)) :=
  ⟨by norm_num, ((C4_quorum_check_spec 5 10 (1/2)).2.1 (by norm_num)).1⟩

/-- C6: whenever a tick completes, step 6 has recomputed the module
state from the neighbor count left by pruning: at least K/2 neighbors
(integer division, K = 7, so 3) gives Active, a positive count gives
Degraded, and zero gives Isolated. -/
theorem C6_state_from_neighbor_count (m : Module) (now : ℤ)
    (all_modules : List (ℕ × Sim.Field)) (expFn : ℚ → ℚ)
    (thermalSample : ℚ) (m2 : Module)
    (h : m.tick now all_modules expFn thermalSample = Except.ok m2) :
    m2.state =
      (if m2.neighbors.length ≥ K_NEIGHBORS / 2 then ModuleState.active
       else if m2.neighbors.length > 0 then ModuleState.degraded
       else ModuleState.isolated) := by
  revert h
  simp only [Module.tick]
  cases hp : pruneLoop m.known_modules m.id (all_modules.map Prod.fst)
      m.neighbors m.neighbors with
  | error e => intro h; simp at h
  | ok nbs =>
      intro h
      simp only [Except.ok.injEq] at h
      subst h
      simp

/-- C6 witness: an isolated module with no neighbors and an empty
registry ticks successfully and lands in the Isolated branch of the
recomputation. -/
theorem C6_state_from_neighbor_count_witness :
    (Module.tick { id := 1, position := ⟨0, 0, 0⟩ } 1000 [] (fun _ => 0) 0 =
      Except.ok { id := 1
                  position := ⟨0, 0, 0⟩
                  state := ModuleState.isolated
                  my_field := { load := 0
                                thermal := 0
                                power := 0 * (8/10)
                                timestamp := 1000
                                source := 1 }
                  neighbors := []
                  known_modules := []
                  load := 0 }) ∧
    ModuleState.isolated =
      (if (([] : List Neighbor)).length ≥ K_NEIGHBORS / 2 then
        ModuleState.active
       else if (([] : List Neighbor)).length > 0 then ModuleState.degraded
       else ModuleState.isolated) :=
  ⟨rfl, C6_state_from_neighbor_count { id := 1, position := ⟨0, 0, 0⟩ } 1000
    [] (fun _ => 0) 0
    { id := 1
      position := ⟨0, 0, 0⟩
      state := ModuleState.isolated
      my_field := { load := 0
                    thermal := 0
                    power := 0 * (8/10)
                    timestamp := 1000
                    source := 1 }
      neighbors := []
      known_modules := []
      load := 0 } rfl⟩

/-- C9: when pruning leaves the neighbor list empty, the sampling list
is empty, the gradient/nudge/clamp steps are skipped, and the tick
returns the module with its load unchanged — only my_field (republished
from the unchanged load) and state (Isolated) are recomputed, with id,
position, known_modules and load untouched. -/
theorem C9_empty_neighbors_skips_gradient (m : Module) (now : ℤ)
    (all_modules : List (ℕ × Sim.Field)) (expFn : ℚ → ℚ)
    (thermalSample : ℚ)
    (h : pruneLoop m.known_modules m.id (all_modules.map Prod.fst)
      m.neighbors m.neighbors = Except.ok []) :
    m.tick now all_modules expFn thermalSample = Except.ok
      { m with
        neighbors := []
        my_field := { load := m.load
                      thermal := thermalSample
                      power := m.load * (8/10)
                      timestamp := now
                      source := m.id }
        state := ModuleState.isolated } := by
  simp only [Module.tick, h]
  simp [K_NEIGHBORS]

/-- C9 witness: a module with an empty neighbor list prunes to the
empty list and ticks to the frame-preserving result. -/
theorem C9_empty_neighbors_skips_gradient_witness :
    (pruneLoop ([] : List KnownEntry) 1 (List.map Prod.fst
      ([] : List (ℕ × Sim.Field))) [] [] = Except.ok []) ∧
    Module.tick { id := 1, position := ⟨0, 0, 0⟩ } 2000 [] (fun _ => 0)
        (1/4) =
      Except.ok { id := 1
                  position := ⟨0, 0, 0⟩
                  state := ModuleState.isolated
                  my_field := { load := 0
                                thermal := 1/4
                                power := 0 * (8/10)
                                timestamp := 2000
                                source := 1 }
                  neighbors := []
                  known_modules := []
                  load := 0 } :=
  ⟨rfl, C9_empty_neighbors_skips_gradient
    { id := 1, position := ⟨0, 0, 0⟩ } 2000 [] (fun _ => 0) (1/4) rfl⟩

/-- C10: with a non-empty electorate and a threshold ≤ 0, `quorum_check`
approves every proposal with a non-negative yes count — in particular
with zero yes votes. -/
theorem C10_nonpositive_threshold_approves (yes_count total_voters : ℤ)
    (threshold : ℚ) (hy : 0 ≤ yes_count) (ht : 0 < total_voters)
    (hth : threshold ≤ 0) :
    quorum_check yes_count total_voters threshold = VoteResult.approved ∧
    quorum_check 0 total_voters threshold = VoteResult.approved := by
  have htQ : (0 : ℚ) < (total_voters : ℚ) := by exact_mod_cast ht
  have h1 : (0 : ℚ) ≤ (yes_count : ℚ) / (total_voters : ℚ) :=
    div_nonneg (by exact_mod_cast hy) (le_of_lt htQ)
  refine ⟨?_, ?_⟩ <;> unfold quorum_check
  · rw [if_neg (by omega), if_pos (le_trans hth h1)]
  · rw [if_neg (by omega), if_pos (le_trans hth (by simp))]

/-- C10 witness: zero yes votes, ten voters, threshold 0 is approved. -/
theorem C10_nonpositive_threshold_approves_witness :
    (0 : ℤ) ≤ 0 ∧ (0 : ℤ) < 10 ∧ (0 : ℚ) ≤ 0 ∧
    quorum_check 0 10 0 = VoteResult.approved :=
  ⟨le_refl 0, by norm_num, le_refl 0,
    (C10_nonpositive_threshold_approves 0 10 0 (le_refl 0) (by norm_num)
      (le_refl 0)).1⟩

/-- C5 counterexample: the claim says a neighbor in the Unknown state
stays Unknown for every elapsed value when no heartbeat is received, but
the code checks the Dead and Suspect thresholds first: at
elapsed = 25000 with period 10000 the Unknown neighbor moves to
Suspect. -/
theorem C5_unknown_not_held_counterexample :
    heartbeat_state_transition HealthState.unknown 25000 10000 5 false =
      HealthState.suspect ∧
    HealthState.suspect ≠ HealthState.unknown := by decide

/-- C5 amended: with no received heartbeat, Unknown stays Unknown
exactly while elapsed is at or below both the suspect threshold
(period·2) and the dead threshold (period·timeout_count); beyond those
it transitions to Suspect or Dead like any other state. -/
theorem C5_unknown_holds_within_thresholds (elapsed period timeout_count : ℤ) :
    (elapsed ≤ period * timeout_count → elapsed ≤ period * 2 →
      heartbeat_state_transition HealthState.unknown elapsed period timeout_count false =
        HealthState.unknown) ∧
    (period * timeout_count < elapsed →
      heartbeat_state_transition HealthState.unknown elapsed period timeout_count false =
        HealthState.dead) ∧
    (elapsed ≤ period * timeout_count → period * 2 < elapsed →
      heartbeat_state_transition HealthState.unknown elapsed period timeout_count false =
        HealthState.suspect) := by
  simp only [heartbeat_state_transition]
  refine ⟨fun h1 h2 => ?_, fun h1 => ?_, fun h1 h2 => ?_⟩ <;>
    split_ifs <;> first | rfl | omega | simp_all

/-- C2 amended: the decay factor computed by the core's `apply_decay`
(reference_impl.py) is exactly the spec's 5-segment piecewise-linear
approximation of exp(-elapsed/tau) with tau = 100000 µs, floored at 0,
and for every component value its decay at elapsed ≥ 5·tau is exactly
the zero element; the simulator's `Field.decay` (multi_module.py), by
contrast, multiplies every component by `exp(-elapsed/tau)` itself — not
the piecewise ladder — for whatever exponential `expFn` stands for. -/
theorem C2_decay_factor_piecewise (elapsed_us : ℤ) (value : Q16_16) :
    decay_factor elapsed_us 100000 = max 0 (specDecayFactor elapsed_us 100000) ∧
    (500000 ≤ elapsed_us → apply_decay value elapsed_us 100000 = ⟨0⟩) ∧
    (∀ (f : Sim.Field) (now : ℤ) (expFn : ℚ → ℚ),
      (f.decay now expFn).load =
        f.load * expFn (-((now - f.timestamp : ℤ) : ℚ) /
          ((Sim.FIELD_DECAY_TAU_US : ℤ) : ℚ))) := by
  refine ⟨?_, ?_, fun f now expFn => rfl⟩
  · simp only [decay_factor, specDecayFactor]
    norm_num
    split_ifs <;> first | omega | rfl | (congr 1; ring)
  · intro h
    have hf : decay_factor elapsed_us 100000 = 0 := by
      simp only [decay_factor]
      rw [if_neg (by omega), if_neg (by omega), if_neg (by omega),
        if_neg (by omega)]
      simp
    unfold apply_decay
    rw [if_neg (by omega), hf, mul_zero]
    exact Q16_ZERO_eq

/-- C2 counterexample: the claim's cited `Field.decay` of
multi_module.py — the decay the in-scope tick applies to neighbor
fields — multiplies by `math.exp(-elapsed/tau)` rather than the
piecewise ladder. At elapsed = 5·tau = 500000, CPython's `math.exp`
returns the double `expNegFiveDouble` ≈ 0.0067: a field with load 1
decays to exactly that nonzero value, refuting "decay at
elapsed ≥ 5·tau yields exactly zero for every component value", and the
factor differs from the spec's piecewise factor, which is 0 there. -/
theorem C2_sim_decay_not_zero_counterexample :
    (Sim.Field.decay { load := 1, timestamp := 0 } 500000
      (fun _ => Sim.expNegFiveDouble)).load = Sim.expNegFiveDouble ∧
    Sim.expNegFiveDouble ≠ 0 ∧
    max 0 (specDecayFactor 500000 100000) = 0 := by
  refine ⟨?_, by norm_num [Sim.expNegFiveDouble], ?_⟩
  · simp [Sim.Field.decay]
  · norm_num [specDecayFactor]

/-- C2 witness: the factor identity at elapsed 150000, exact zero at
elapsed 600000 ≥ 5·tau for the component value with bits 123456, and
the simulator decay shape at a concrete field. -/
theorem C2_decay_factor_piecewise_witness :
    decay_factor 150000 100000 = max 0 (specDecayFactor 150000 100000) ∧
    (500000 : ℤ) ≤ 600000 ∧
    apply_decay ⟨123456⟩ 600000 100000 = ⟨0⟩ ∧
    (Sim.Field.decay { load := 1, timestamp := 0 } 500000 (fun _ => 0)).load =
      1 * (0 : ℚ) :=
  ⟨(C2_decay_factor_piecewise 150000 ⟨123456⟩).1, by norm_num,
    (C2_decay_factor_piecewise 600000 ⟨123456⟩).2.1 (by norm_num),
    (C2_decay_factor_piecewise 600000 ⟨123456⟩).2.2
      { load := 1, timestamp := 0 } 500000 (fun _ => 0)⟩

/-- C7: the antisymmetry claim over the full Q16.16 component range
fails on the code, as a direct consequence of the constructor bug of C1:
`Q16_16.__init__` wraps overflow above `0x7FFFFFFF` but never wraps
underflow below `-2^31`. With a.load bits = 2147483647 (the maximum) and
b.load bits = -2147483648 (the minimum), `gradient(a, b, "load")` stores
the unwrapped difference -4294967295, while `-gradient(b, a, "load")`
wraps twice and yields bits 1, so the two sides differ. With the
documented mod-2^32 reduction both sides would be bits 1 and the claim
would hold. -/
theorem C7_gradient_antisymmetry_fails_at_extremes :
    RefImpl.gradient ({ load := ⟨2147483647⟩ } : RefImpl.Field)
        ({ load := ⟨-2147483648⟩ } : RefImpl.Field) "load" =
      Except.ok (PyVal.q ⟨-4294967295⟩) ∧
    (RefImpl.gradient ({ load := ⟨-2147483648⟩ } : RefImpl.Field)
        ({ load := ⟨2147483647⟩ } : RefImpl.Field) "load").map pyNeg =
      Except.ok (PyVal.q ⟨1⟩) ∧
    RefImpl.gradient ({ load := ⟨2147483647⟩ } : RefImpl.Field)
        ({ load := ⟨-2147483648⟩ } : RefImpl.Field) "load" ≠
      (RefImpl.gradient ({ load := ⟨-2147483648⟩ } : RefImpl.Field)
        ({ load := ⟨2147483647⟩ } : RefImpl.Field) "load").map pyNeg := by decide

/-- C8 counterexample: "timestamp" is not a recognized component name,
yet `gradient` on it returns the plain int difference of the timestamp
attributes (here 2), not the zero FixedPoint element — `getattr` finds
every instance attribute of the dataclass, not only the five
components. -/
theorem C8_unrecognized_component_counterexample :
    "timestamp" ∉ recognizedComponents ∧
    RefImpl.gradient ({ timestamp := 3 } : RefImpl.Field)
        ({ timestamp := 5 } : RefImpl.Field) "timestamp" =
      Except.ok (PyVal.i 2) ∧
    (Except.ok (PyVal.i 2) : Except Unit PyVal) ≠
      Except.ok (PyVal.q Q16_ZERO) := by decide

/-- C8 amended: for every component name that is neither an instance
attribute of the Field dataclass (one of the five components or
timestamp/source/sequence) nor a double-underscore name (where `getattr`
can resolve a class-level attribute on which the subtraction raises
`TypeError`), `gradient` returns the zero FixedPoint element rather than
failing. -/
theorem C8_unknown_attr_yields_zero (f1 f2 : RefImpl.Field) (c : String)
    (hc : c ∉ fieldAttrNames) (hd : isDunderName c = false) :
    RefImpl.gradient f1 f2 c = Except.ok (PyVal.q Q16_ZERO) := by
  simp only [fieldAttrNames, List.mem_cons, List.not_mem_nil, or_false,
    not_or] at hc
  obtain ⟨h1, h2, h3, h4, h5, h6, h7, h8⟩ := hc
  have hz : Q16_16.sub Q16_ZERO Q16_ZERO = Q16_ZERO := by
    rw [Q16_ZERO_eq]; decide
  simp [RefImpl.gradient, RefImpl.Field.getattr, pySub, h1, h2, h3, h4, h5,
    h6, h7, h8, hd, hz]

/-- C8 amended witness: the unknown non-dunder name "bogus" yields the
zero element on two default fields. -/
theorem C8_unknown_attr_yields_zero_witness :
    ("bogus" ∉ fieldAttrNames) ∧ isDunderName "bogus" = false ∧
    RefImpl.gradient ({} : RefImpl.Field) {} "bogus" =
      Except.ok (PyVal.q Q16_ZERO) :=
  ⟨by decide, by decide,
    C8_unknown_attr_yields_zero {} {} "bogus" (by decide) (by decide)⟩

/-- C3 counterexample: with two known modules at equal distance 4
discovered in the order id 5 then id 2, both live, `_reelect` keeps the
stable-sort (insertion) order [5, 2] while the claim's
(distance, id)-lexicographic order demands [2, 5]; the two procedures
disagree on this input. -/
theorem C3_reelect_counterexample :
    reelect [(5, ⟨0, 0, 0⟩, 4), (2, ⟨0, 0, 0⟩, 4)] 1 [5, 2] ≠
      reelectClaim [(5, ⟨0, 0, 0⟩, 4), (2, ⟨0, 0, 0⟩, 4)] 1 [5, 2] ∧
    (reelect [(5, ⟨0, 0, 0⟩, 4), (2, ⟨0, 0, 0⟩, 4)] 1 [5, 2]).map
      Neighbor.id = [5, 2] ∧
    (reelectClaim [(5, ⟨0, 0, 0⟩, 4), (2, ⟨0, 0, 0⟩, 4)] 1 [5, 2]).map
      Neighbor.id = [2, 5] := by decide

/-- C3 amended: `_reelect` sorts the known modules by distance ascending
with ties kept in dict insertion order (Python's stable sort), truncates
to the first K = 7, and then keeps the live non-self ids, each as a
fresh Neighbor marked ALIVE with the recorded distance and default
last_seen/last_field. Hence the result is ordered by distance, contains
only live non-self ids drawn from the known modules, has at most K
entries, and — when every known module is live and non-self — exactly
min(K, known_count) entries; as a pure function of the insertion-ordered
known list it is deterministic. -/
theorem C3_reelect_characterization (known_modules : List KnownEntry)
    (self_id : ℕ) (live : List ℕ) :
    List.Pairwise (fun n1 n2 : Neighbor => n1.distance ≤ n2.distance)
      (reelect known_modules self_id live) ∧
    (∀ nb ∈ reelect known_modules self_id live,
      nb.health = RefImpl.HealthState.alive ∧ nb.last_seen = 0 ∧
      nb.last_field = none ∧ nb.id ≠ self_id ∧ nb.id ∈ live ∧
      ∃ pos, (nb.id, pos, nb.distance) ∈ known_modules) ∧
    (reelect known_modules self_id live).length ≤ K_NEIGHBORS ∧
    ((∀ e ∈ known_modules, e.1 ≠ self_id ∧ e.1 ∈ live) →
      (reelect known_modules self_id live).length =
        min K_NEIGHBORS known_modules.length) := by
  haveI hTot : IsTotal KnownEntry (fun a b : KnownEntry => a.2.2 ≤ b.2.2) :=
    ⟨fun a b => le_total a.2.2 b.2.2⟩
  haveI hTr : IsTrans KnownEntry (fun a b : KnownEntry => a.2.2 ≤ b.2.2) :=
    ⟨fun a b c hab hbc => le_trans hab hbc⟩
  have hsorted := List.sorted_insertionSort
    (fun a b : KnownEntry => a.2.2 ≤ b.2.2) known_modules
  have hmemS : ∀ e : KnownEntry,
      e ∈ List.insertionSort (fun a b : KnownEntry => a.2.2 ≤ b.2.2)
        known_modules → e ∈ known_modules :=
    fun e he => (List.perm_insertionSort _ known_modules).mem_iff.mp he
  refine ⟨?_, ?_, ?_, ?_⟩
  · simp only [reelect]
    rw [List.pairwise_map]
    exact ((hsorted.sublist (List.take_sublist _ _)).filter _)
  · intro nb hnb
    simp only [reelect, List.mem_map] at hnb
    obtain ⟨e, he, rfl⟩ := hnb
    rw [List.mem_filter] at he
    obtain ⟨htake, hpred⟩ := he
    have hmem : e ∈ known_modules := hmemS e (List.mem_of_mem_take htake)
    have hpred2 : e.1 ≠ self_id ∧ e.1 ∈ live := by simpa using hpred
    exact ⟨rfl, rfl, rfl, hpred2.1, hpred2.2, e.2.1, by simpa using hmem⟩
  · simp only [reelect, List.length_map]
    calc (List.filter _ _).length ≤ _ := List.length_filter_le _ _
      _ ≤ K_NEIGHBORS := by
        rw [List.length_take]; exact min_le_left _ _
  · intro hall
    simp only [reelect, List.length_map]
    have hkeep : ∀ e ∈ (List.insertionSort
        (fun a b : KnownEntry => a.2.2 ≤ b.2.2) known_modules).take
          K_NEIGHBORS,
        (fun e : KnownEntry => decide (e.1 ≠ self_id ∧ e.1 ∈ live)) e =
          true := by
      intro e he
      exact decide_eq_true (hall e (hmemS e (List.mem_of_mem_take he)))
    rw [List.filter_eq_self.mpr hkeep, List.length_take,
      (List.perm_insertionSort _ known_modules).length_eq]

/-- C3 witness: the characterization applied at the counterexample
input, with the all-live hypothesis discharged: the neighbor list keeps
both entries, min(7, 2) = 2 of them. -/
theorem C3_reelect_characterization_witness :
    (∀ e ∈ ([(5, ⟨0, 0, 0⟩, 4), (2, ⟨0, 0, 0⟩, 4)] : List KnownEntry),
      e.1 ≠ 1 ∧ e.1 ∈ [5, 2]) ∧
    (reelect [(5, ⟨0, 0, 0⟩, 4), (2, ⟨0, 0, 0⟩, 4)] 1 [5, 2]).length =
      min K_NEIGHBORS
        ([(5, ⟨0, 0, 0⟩, 4), (2, ⟨0, 0, 0⟩, 4)] : List KnownEntry).length :=
  ⟨by decide,
    (C3_reelect_characterization [(5, ⟨0, 0, 0⟩, 4), (2, ⟨0, 0, 0⟩, 4)] 1
      [5, 2]).2.2.2 (by decide)⟩

/-- C5 witness: at elapsed 15000 with period 10000 and timeout count 5,
both thresholds are respected and Unknown is held. -/
theorem C5_unknown_holds_within_thresholds_witness :
    (15000 : ℤ) ≤ 10000 * 5 ∧ (15000 : ℤ) ≤ 10000 * 2 ∧
    heartbeat_state_transition HealthState.unknown 15000 10000 5 false =
      HealthState.unknown :=
  ⟨by norm_num, by norm_num,
    (C5_unknown_holds_within_thresholds 15000 10000 5).1 (by norm_num) (by norm_num)⟩

end EkKor2
